import Mathlib

/-!
Verification development for the circuit-crossing verifier
(`ps3/circuit2/circuit2.py`): a plane-sweep crossing engine over an
AVL-style range index.  The Python source is shallowly embedded below;
pointer-linked tree nodes are modelled as an explicit node store (an
array indexed by node ids) so that the source's parent/child pointer
updates, including stale-pointer states, are represented faithfully.
Coordinates (Python floats, used only through order comparisons) are
modelled as `Int`.  Python exceptions are modelled by `PyErr`; loops are
given explicit fuel, with exhaustion reported as the distinguished
`PyErr.fuelOut` (never reached on the concrete runs below).
-/

/-- Python exception outcomes relevant to this module:
`valueError` for `raise ValueError`, `attributeError` for attribute
access on `None` or on an object lacking the attribute, `bareRaise` for
a bare `raise` with no active exception (Python's `RuntimeError`), and
`fuelOut` as a modelling artefact marking loop-fuel exhaustion. -/
inductive PyErr where
  | valueError
  | attributeError
  | bareRaise
  | fuelOut
deriving DecidableEq, Repr

/-- Computations that may raise a Python exception. -/
abbrev PyM (α : Type) := Except PyErr α

/-- `True` exactly on `Except.ok`. -/
def isOkE {α : Type} : PyM α → Bool
  | .ok _ => true
  | .error _ => false

/-- Embeds `Wire`: name, normalized endpoints (`x1 ≤ x2`, `y1 ≤ y2` after
construction), and the monotonically assigned `object_id`. -/
structure Wire where
  name : String
  x1 : Int
  y1 : Int
  x2 : Int
  y2 : Int
  object_id : Nat
deriving DecidableEq, Repr

/-- Embeds `Wire.is_horizontal`: the endpoints share their Y coordinate. -/
def Wire.is_horizontal (w : Wire) : Bool := w.y1 == w.y2

/-- Embeds `Wire.is_vertical`: the endpoints share their X coordinate. -/
def Wire.is_vertical (w : Wire) : Bool := w.x1 == w.x2

/-- Embeds `Wire.__init__`: normalizes the coordinates (swap so that
`x1 ≤ x2` and `y1 ≤ y2`), records the `object_id` drawn from the global
counter (passed here explicitly as `oid`; Python assigns it before the
validity check), and raises `ValueError` unless the wire is horizontal
or vertical. -/
def mkWire (name : String) (x1 y1 x2 y2 : Int) (oid : Nat) : PyM Wire :=
  let nx1 := if x1 > x2 then x2 else x1
  let nx2 := if x1 > x2 then x1 else x2
  let ny1 := if y1 > y2 then y2 else y1
  let ny2 := if y1 > y2 then y1 else y2
  let w : Wire := ⟨name, nx1, ny1, nx2, ny2, oid⟩
  if w.is_horizontal || w.is_vertical then .ok w else .error .valueError

/-- Embeds `Wire.intersects`: same orientation never intersects; otherwise
the horizontal/vertical roles are assigned and the four closed-interval
comparisons from the source are evaluated. -/
def Wire.intersects (self other : Wire) : Bool :=
  if self.is_horizontal == other.is_horizontal then false
  else
    let h := if self.is_horizontal then self else other
    let v := if self.is_horizontal then other else self
    decide (v.y1 ≤ h.y1) && decide (h.y1 ≤ v.y2) &&
      decide (h.x1 ≤ v.x1) && decide (v.x1 ≤ h.x2)

/-- Embeds `KeyWirePair` (and its sentinel subclasses): a coordinate key,
an optional owning wire (`None` for the sentinels), and the tie-break
`wire_id` (the wire's `object_id`, or ±1000000000 for sentinels). -/
structure KeyWirePair where
  key : Int
  wire : Option Wire
  wire_id : Int
deriving DecidableEq, Repr

instance : Inhabited KeyWirePair := ⟨⟨0, none, 0⟩⟩

/-- Embeds `KeyWirePair.__init__`: raises `ValueError` on a `None` wire,
otherwise stores the wire and copies its `object_id` as `wire_id`. -/
def mkKeyWirePair (key : Int) (wire : Option Wire) : PyM KeyWirePair :=
  match wire with
  | none => .error .valueError
  | some w => .ok ⟨key, some w, (w.object_id : Int)⟩

/-- Embeds `KeyWirePairL.__init__`: the low range-query sentinel,
`wire_id = -1000000000`. -/
def keyWirePairL (key : Int) : KeyWirePair := ⟨key, none, -1000000000⟩

/-- Embeds `KeyWirePairH.__init__`: the high range-query sentinel,
`wire_id = 1000000000`. -/
def keyWirePairH (key : Int) : KeyWirePair := ⟨key, none, 1000000000⟩

/-- Embeds `KeyWirePair.__lt__`: key first, `wire_id` as tie-break. -/
def KeyWirePair.lt (a b : KeyWirePair) : Bool :=
  decide (a.key < b.key) || (a.key == b.key && decide (a.wire_id < b.wire_id))

/-- Embeds `KeyWirePair.__le__`. -/
def KeyWirePair.le (a b : KeyWirePair) : Bool :=
  decide (a.key < b.key) || (a.key == b.key && decide (a.wire_id ≤ b.wire_id))

/-- Embeds `KeyWirePair.__gt__`. -/
def KeyWirePair.gt (a b : KeyWirePair) : Bool :=
  decide (a.key > b.key) || (a.key == b.key && decide (a.wire_id > b.wire_id))

/-- Embeds `KeyWirePair.__ge__`. -/
def KeyWirePair.ge (a b : KeyWirePair) : Bool :=
  decide (a.key > b.key) || (a.key == b.key && decide (a.wire_id ≥ b.wire_id))

/-- Embeds `KeyWirePair.__eq__`: both key and `wire_id` match. -/
def KeyWirePair.eq (a b : KeyWirePair) : Bool :=
  a.key == b.key && a.wire_id == b.wire_id

/-- Embeds `KeyWirePair.__ne__`: as written in the source, it requires
BOTH the keys AND the wire ids to differ (`and`, not `or`). -/
def KeyWirePair.ne (a b : KeyWirePair) : Bool :=
  !(a.key == b.key) && !(a.wire_id == b.wire_id)

/-- Demo wires for witnesses: a horizontal wire (0,0)-(10,0) and a
vertical wire (5,-5)-(5,5). -/
def hDemo : Wire := ⟨"h", 0, 0, 10, 0, 0⟩

/-- Vertical demo wire. -/
def vDemo : Wire := ⟨"v", 5, -5, 5, 5, 1⟩

/-- C4: for a (properly) horizontal wire `h` and (properly) vertical wire
`v`, `h.intersects v` is true iff `v`'s x-coordinate lies in `h`'s closed
x-span and `h`'s y-coordinate lies in `v`'s closed y-span; and any two
wires of the same orientation never intersect. -/
theorem wire_intersects_spec (h v : Wire) :
    (h.is_horizontal = true → v.is_horizontal = false → v.is_vertical = true →
      (Wire.intersects h v = true ↔
        (h.x1 ≤ v.x1 ∧ v.x1 ≤ h.x2 ∧ v.y1 ≤ h.y1 ∧ h.y1 ≤ v.y2))) ∧
    (h.is_horizontal = v.is_horizontal → Wire.intersects h v = false) := by
  constructor
  · intro hH hV _
    simp only [Wire.intersects, hH, hV]
    simp only [beq_iff_eq, Bool.true_eq_false, if_false, if_true,
      Bool.and_eq_true, decide_eq_true_eq, ite_true]
    tauto
  · intro hEq
    simp [Wire.intersects, hEq]

/-- Witness for C4 at the demo wires: the crossing pair from the spec's
first end-to-end scenario intersects, and a wire never intersects a wire
of its own orientation. -/
theorem wire_intersects_spec_witness :
    Wire.intersects hDemo vDemo = true ∧ Wire.intersects hDemo hDemo = false :=
  ⟨((wire_intersects_spec hDemo vDemo).1 rfl rfl rfl).mpr (by decide),
   (wire_intersects_spec hDemo hDemo).2 rfl⟩

/-- The success flag of a boolean-guarded construction is the guard. -/
theorem isOkE_cond {α : Type} (b : Bool) (w : α) (e : PyErr) :
    isOkE (if b then (.ok w : PyM α) else .error e) = b := by
  cases b <;> rfl

/-- C6 (amended): `Wire` construction succeeds exactly when at least one
of `x1 = x2` or `y1 = y2` holds — diagonals fail with the geometry
`ValueError`, while a degenerate point (both equalities) is accepted. -/
theorem mkWire_ok_iff (n : String) (x1 y1 x2 y2 : Int) (i : Nat) :
    isOkE (mkWire n x1 y1 x2 y2 i) = (x1 == x2 || y1 == y2) := by
  simp only [mkWire, isOkE_cond, Wire.is_horizontal, Wire.is_vertical]
  rw [Bool.eq_iff_iff]
  simp only [Bool.or_eq_true, beq_iff_eq]
  split_ifs <;> omega

/-- Counterexample for C6 as stated: the degenerate point wire
(0,0)-(0,0) — where both `x1 = x2` and `y1 = y2` hold, so NOT exactly one
— is constructed successfully instead of failing with the geometry
error. -/
theorem mkWire_point_accepted :
    mkWire "p" 0 0 0 0 0 = .ok ⟨"p", 0, 0, 0, 0, 0⟩ := by rfl

/-- Wire used by the C7 witness (`object_id = 42`). -/
def wSmall : Wire := ⟨"w", 0, 7, 10, 7, 42⟩

/-- C7 (amended): the low sentinel `KeyWirePairL c` compares strictly
below every real `KeyWirePair` at coordinate `c`, and the high sentinel
`KeyWirePairH c` compares strictly above every real pair at `c` whose
wire id is below 10^9 (the source assumes fewer than a billion wires). -/
theorem sentinel_bounds (c : Int) (w : Wire) (p : KeyWirePair)
    (hp : mkKeyWirePair c (some w) = .ok p) :
    KeyWirePair.lt (keyWirePairL c) p = true ∧
    ((w.object_id : Int) < 1000000000 →
      KeyWirePair.gt (keyWirePairH c) p = true) := by
  simp only [mkKeyWirePair, Except.ok.injEq] at hp
  subst hp
  constructor
  · simp [KeyWirePair.lt, keyWirePairL]
    omega
  · intro hlt
    simp [KeyWirePair.gt, keyWirePairH]
    omega

/-- Witness for C7's amended theorem at coordinate 7 and a wire with
id 42. -/
theorem sentinel_bounds_witness :
    KeyWirePair.lt (keyWirePairL 7) ⟨7, some wSmall, 42⟩ = true ∧
    KeyWirePair.gt (keyWirePairH 7) ⟨7, some wSmall, 42⟩ = true := by
  have h := sentinel_bounds 7 wSmall ⟨7, some wSmall, 42⟩ rfl
  exact ⟨h.1, h.2 (by decide)⟩

/-- Wire whose `object_id` is exactly 10^9 (reachable: the global counter
just increments, at the billion-and-first construction). -/
def wBillion : Wire := ⟨"big", 0, 0, 10, 0, 1000000000⟩

/-- Counterexample for C7 as stated: the real key-wire pair owned by the
wire with `object_id = 10^9` at coordinate 0 is produced by the
`KeyWirePair` constructor, yet the high sentinel at coordinate 0 does NOT
compare strictly above it (their wire ids tie), refuting "strictly above
every real KeyWirePair". -/
theorem sentinel_high_not_above_billion :
    mkKeyWirePair 0 (some wBillion) = .ok ⟨0, some wBillion, 1000000000⟩ ∧
    KeyWirePair.gt (keyWirePairH 0) ⟨0, some wBillion, 1000000000⟩ = false := by
  constructor
  · rfl
  · rfl

/-- C10: `KeyWirePair.__ne__` is true iff both the keys and the wire ids
differ; hence two pairs sharing a coordinate but owned by different wires
satisfy neither `__eq__` nor `__ne__` — inequality is not the negation of
equality. -/
theorem keyWirePair_ne_spec (a b : KeyWirePair) :
    (KeyWirePair.ne a b = true ↔ (a.key ≠ b.key ∧ a.wire_id ≠ b.wire_id)) ∧
    (a.key = b.key → a.wire_id ≠ b.wire_id →
      KeyWirePair.eq a b = false ∧ KeyWirePair.ne a b = false) := by
  constructor
  · simp [KeyWirePair.ne]
  · intro hk hid
    constructor
    · simp [KeyWirePair.eq, hk, hid]
    · simp [KeyWirePair.ne, hk]

/-- Witness for C10 at two pairs sharing coordinate 5 with wire ids 0 and
1: both equality and inequality return false. -/
theorem keyWirePair_ne_spec_witness :
    KeyWirePair.eq ⟨5, some hDemo, 0⟩ ⟨5, some vDemo, 1⟩ = false ∧
    KeyWirePair.ne ⟨5, some hDemo, 0⟩ ⟨5, some vDemo, 1⟩ = false :=
  (keyWirePair_ne_spec ⟨5, some hDemo, 0⟩ ⟨5, some vDemo, 1⟩).2 rfl (by decide)

/-!
The `RangeIndex` AVL tree.  `BSTnode` objects are modelled as records in
an explicit store (`nodes : Array PyNode`), with node ids as indices, so
that the source's parent/child pointer writes — including the states
where parent and child pointers disagree, which `pop_node` can create —
are represented exactly.  A fresh node is allocated by pushing onto the
store; Python's `del`-free object graph means "removed" nodes simply stay
in the store, as in CPython.
-/

/-- Embeds `BSTnode`: key plus `left`/`right`/`parent` links (node ids),
and the cached `height` and `number_below` fields.  In Python the two
caches do not exist until `update_height`/`update_number_below` first
assign them; they are initialised to 0 here and are always written before
being read on the runs below, mirroring `BSTnode.__init__` followed by
`rebalance`. -/
structure PyNode where
  key : KeyWirePair
  left : Option Nat := none
  right : Option Nat := none
  parent : Option Nat := none
  height : Int := 0
  number_below : Int := 0
deriving DecidableEq, Repr

instance : Inhabited PyNode := ⟨{key := default}⟩

/-- Embeds `RangeIndex`: `__init__` sets only `self.root = None`.  The
`data` field models the Python attribute `self.data` that the surviving
array-based bodies of `list`/`count` still read: no method of the class
ever creates it, which is recorded here by initialising it to `none`
(attribute absent). -/
structure RangeIndex where
  nodes : Array PyNode
  root : Option Nat
  data : Option (List KeyWirePair)
deriving DecidableEq, Repr

/-- A fresh `RangeIndex()`: empty store, `root = None`, no `data`
attribute. -/
def RangeIndex.empty : RangeIndex := ⟨#[], none, none⟩

/-- Dereferences a node id in the store (all ids used below are in
bounds; the default is never produced on the concrete runs). -/
def nd (s : RangeIndex) (i : Nat) : PyNode := s.nodes.getD i default

/-- Rewrites one node of the store in place. -/
def setNode (s : RangeIndex) (i : Nat) (f : PyNode → PyNode) : RangeIndex :=
  {s with nodes := s.nodes.modify i f}

/-- Embeds the module-level `height` helper: `-1` for `None`, else the
node's cached height. -/
def heightO (s : RangeIndex) : Option Nat → Int
  | none => -1
  | some i => (nd s i).height

/-- Embeds `update_height`: `node.height = max(height(node.right),
height(node.left)) + 1`. -/
def update_height (s : RangeIndex) (i : Nat) : RangeIndex :=
  setNode s i fun n => {n with height := max (heightO s n.right) (heightO s n.left) + 1}

/-- Embeds the module-level `number_below(right, left)` helper, with the
source's argument order and its four truthiness cases. -/
def number_below_f (s : RangeIndex) : Option Nat → Option Nat → Int
  | some r, some l => (nd s l).number_below + (nd s r).number_below + 2
  | some r, none => (nd s r).number_below + 1
  | none, some l => (nd s l).number_below + 1
  | none, none => 0

/-- Embeds `update_number_below`:
`node.number_below = number_below(node.right, node.left)`. -/
def update_number_below (s : RangeIndex) (i : Nat) : RangeIndex :=
  setNode s i fun n => {n with number_below := number_below_f s n.right n.left}

/-- Embeds `RangeIndex.left_rotate`, statement by statement.  Python
would raise `AttributeError` on `y.parent = x.parent` if `x.right` were
`None`. -/
def left_rotate (s : RangeIndex) (x : Nat) : PyM RangeIndex :=
  match (nd s x).right with
  | none => .error .attributeError
  | some y =>
    let s1 := setNode s y fun n => {n with parent := (nd s x).parent}
    let s2 := match (nd s1 y).parent with
      | none => {s1 with root := some y}
      | some p =>
        if (nd s1 p).left == some x then setNode s1 p (fun n => {n with left := some y})
        else if (nd s1 p).right == some x then setNode s1 p (fun n => {n with right := some y})
        else s1
    let s3 := setNode s2 x fun n => {n with right := (nd s2 y).left}
    let s4 := match (nd s3 x).right with
      | some r => setNode s3 r fun n => {n with parent := some x}
      | none => s3
    let s5 := setNode s4 y fun n => {n with left := some x}
    let s6 := setNode s5 x fun n => {n with parent := some y}
    let s7 := update_number_below (update_height s6 x) x
    .ok (update_number_below (update_height s7 y) y)

/-- Embeds `RangeIndex.right_rotate`, the mirror image. -/
def right_rotate (s : RangeIndex) (y : Nat) : PyM RangeIndex :=
  match (nd s y).left with
  | none => .error .attributeError
  | some x =>
    let s1 := setNode s x fun n => {n with parent := (nd s y).parent}
    let s2 := match (nd s1 x).parent with
      | none => {s1 with root := some x}
      | some p =>
        if (nd s1 p).left == some y then setNode s1 p (fun n => {n with left := some x})
        else if (nd s1 p).right == some y then setNode s1 p (fun n => {n with right := some x})
        else s1
    let s3 := setNode s2 y fun n => {n with left := (nd s2 x).right}
    let s4 := match (nd s3 y).left with
      | some l => setNode s3 l fun n => {n with parent := some y}
      | none => s3
    let s5 := setNode s4 x fun n => {n with right := some y}
    let s6 := setNode s5 y fun n => {n with parent := some x}
    let s7 := update_number_below (update_height s6 y) y
    .ok (update_number_below (update_height s7 x) x)

/-- Embeds `RangeIndex.rebalance`: walk from `node` to the root, at each
step recomputing height and `number_below`, then rotating when a child is
2 or more taller than its sibling; `node = node.parent` is read after the
rotations, as in the source.  `fuel` bounds the walk. -/
def rebalance : Nat → RangeIndex → Option Nat → PyM RangeIndex
  | 0, _, _ => .error .fuelOut
  | _, s, none => .ok s
  | fuel + 1, s, some n => do
    let s := update_number_below (update_height s n) n
    let s ← do
      let cur := nd s n
      if cur.left.isSome || cur.right.isSome then
        if heightO s cur.left ≥ 2 + heightO s cur.right then
          match cur.left with
          | none => Except.error .attributeError
          | some l =>
            if heightO s (nd s l).left ≥ heightO s (nd s l).right then
              right_rotate s n
            else do
              let s2 ← left_rotate s l
              right_rotate s2 n
        else if heightO s cur.right ≥ 2 + heightO s cur.left then
          match cur.right with
          | none => Except.error .attributeError
          | some r =>
            if heightO s (nd s r).right ≥ heightO s (nd s r).left then
              left_rotate s n
            else do
              let s2 ← right_rotate s r
              left_rotate s2 n
        else Except.ok s
      else Except.ok s
    rebalance fuel s ((nd s n).parent)

/-- Embeds the descent loop of `RangeIndex.add`: go left on
`key < node.key`, else right, hanging the already-allocated new node at
the first free slot. -/
def addLoop : Nat → RangeIndex → KeyWirePair → Nat → Nat → PyM RangeIndex
  | 0, _, _, _, _ => .error .fuelOut
  | fuel + 1, s, key, newId, nodeId =>
    if KeyWirePair.lt key (nd s nodeId).key then
      match (nd s nodeId).left with
      | none =>
        let s := setNode s nodeId fun n => {n with left := some newId}
        .ok (setNode s newId fun n => {n with parent := some nodeId})
      | some l => addLoop fuel s key newId l
    else
      match (nd s nodeId).right with
      | none =>
        let s := setNode s nodeId fun n => {n with right := some newId}
        .ok (setNode s newId fun n => {n with parent := some nodeId})
      | some r => addLoop fuel s key newId r

/-- Embeds `RangeIndex.add`: allocate `BSTnode(key)`, make it the root or
hang it by BST descent, then `rebalance` starting from the new node.
(The source's `if key is None` guard is unrepresentable here since `key`
is not optional.) -/
def RangeIndex.add (s : RangeIndex) (key : KeyWirePair) : PyM RangeIndex := do
  let newId := s.nodes.size
  let s := {s with nodes := s.nodes.push {key := key}}
  let s ← match s.root with
    | none => Except.ok {s with root := some newId}
    | some r => addLoop s.nodes.size s key newId r
  rebalance (s.nodes.size + 1) s (some newId)

/-- Embeds the loop of `RangeIndex.find`: standard BST search by
`__eq__` / `__lt__`, returning the node (id) or `None`. -/
def findLoop : Nat → RangeIndex → KeyWirePair → Option Nat → PyM (Option Nat)
  | 0, _, _, _ => .error .fuelOut
  | _, _, _, none => .ok none
  | fuel + 1, s, key, some n =>
    if KeyWirePair.eq key (nd s n).key then .ok (some n)
    else if KeyWirePair.lt key (nd s n).key then findLoop fuel s key (nd s n).left
    else findLoop fuel s key (nd s n).right

/-- Embeds `RangeIndex.find`. -/
def RangeIndex.find (s : RangeIndex) (key : KeyWirePair) : PyM (Option Nat) :=
  findLoop (s.nodes.size + 1) s key s.root

/-- Embeds `RangeIndex.pop_node`, statement by statement: `find`, then
`parent = node.parent` (an `AttributeError` when `find` returned `None`),
the unconditional `node.parent.left = node.right` / `self.root =
node.right` relink, the child's parent fix, `rebalance(parent)`, and the
final `node.disconnect()`.  Returns the state and the popped node's id. -/
def RangeIndex.pop_node (s : RangeIndex) (key : KeyWirePair) :
    PyM (RangeIndex × Nat) := do
  let node? ← s.find key
  match node? with
  | none => Except.error .attributeError
  | some node => do
    let parent := (nd s node).parent
    let s := match parent with
      | some p => setNode s p fun n => {n with left := (nd s node).right}
      | none => {s with root := (nd s node).right}
    let s := match (nd s node).right with
      | some r => setNode s r fun n => {n with parent := (nd s node).parent}
      | none => s
    let s ← rebalance (s.nodes.size + 1) s parent
    let s := setNode s node fun n => {n with left := none, right := none, parent := none}
    Except.ok (s, node)

/-- Embeds `RangeIndex.list`.  The body kept in the source iterates
`self.data` with the inclusive `first_key <= key <= last_key` filter
(`KeyWirePair.__le__` on both sides); since no method of the class ever
creates the `data` attribute, the access raises `AttributeError`. -/
def RangeIndex.list (s : RangeIndex) (first_key last_key : KeyWirePair) :
    PyM (List KeyWirePair) :=
  match s.data with
  | none => .error .attributeError
  | some d => .ok (d.filter fun k => KeyWirePair.le first_key k && KeyWirePair.le k last_key)

/-- Embeds `RangeIndex.count`: the counting loop over `self.data`, which
likewise raises `AttributeError` because the attribute never exists. -/
def RangeIndex.count (s : RangeIndex) (first_key last_key : KeyWirePair) :
    PyM Nat :=
  match s.data with
  | none => .error .attributeError
  | some d => .ok (d.countP fun k => KeyWirePair.le first_key k && KeyWirePair.le k last_key)

/-- Observer for the spec's tree invariants: the in-order traversal of
the subtree rooted at a node id. -/
def inorderKeys : Nat → RangeIndex → Option Nat → List KeyWirePair
  | 0, _, _ => []
  | _, _, none => []
  | fuel + 1, s, some n =>
    inorderKeys fuel s (nd s n).left ++ [(nd s n).key] ++ inorderKeys fuel s (nd s n).right

/-- Observer: whether a list of keys is strictly ascending under
`KeyWirePair.__lt__`. -/
def ascendingB : List KeyWirePair → Bool
  | [] => true
  | [_] => true
  | a :: b :: t => KeyWirePair.lt a b && ascendingB (b :: t)

/-- Horizontal wire at elevation `y` with the given `object_id`, used as
the owner of stored keys on the concrete tree runs. -/
def hwire (y : Int) (oid : Nat) : Wire := ⟨"h", 0, y, 10, y, oid⟩

/-- The real key-wire pair a horizontal wire at elevation `n` contributes
to the range index (`KeyWirePair(wire.y1, wire)`). -/
def pk (n : Int) (oid : Nat) : KeyWirePair := ⟨n, some (hwire n oid), (oid : Int)⟩

/-- The C1 failing run: insert keys 2, 1, 3, 4 and then pop key 3 — a
node that is its parent's RIGHT child.  `pop_node` nevertheless executes
`node.parent.left = node.right`, overwriting the root's left child. -/
def c1Run : PyM RangeIndex := do
  let s ← RangeIndex.empty.add (pk 2 2)
  let s ← s.add (pk 1 1)
  let s ← s.add (pk 3 3)
  let s ← s.add (pk 4 4)
  let (s, _) ← s.pop_node (pk 3 3)
  Except.ok s

/-- C1 refuted on the code: after the add/pop sequence above the in-order
traversal of the stored keys reads `[4, 2, 3]` — not strictly ascending —
so the search invariant does not survive `pop_node`; and already after a
single `add` the root's cached `number_below` is 0, not the
`1 + count(left) + count(right) = 1` the claim states (the cache stores
the subtree size minus one). -/
theorem c1_invariants_broken :
    (c1Run.map fun s => (inorderKeys 10 s s.root).map KeyWirePair.key) =
      Except.ok [4, 2, 3] ∧
    (c1Run.map fun s => ascendingB (inorderKeys 10 s s.root)) = Except.ok false ∧
    ((RangeIndex.empty.add (pk 1 1)).map fun s => (nd s 0).number_below) =
      Except.ok 0 :=
  ⟨rfl, rfl, rfl⟩

/-- The C5 failing run: insert keys 2, 1, 3 (root 2 with children 1 and
3) and then pop the two-child root 2. -/
def c5Run : PyM RangeIndex := do
  let s ← RangeIndex.empty.add (pk 2 2)
  let s ← s.add (pk 1 1)
  let s ← s.add (pk 3 3)
  let (s, _) ← s.pop_node (pk 2 2)
  Except.ok s

/-- C5 refuted on the code: popping the two-child root of the tree
{1, 2, 3} leaves only `[3]` — the left subtree holding key 1 is dropped
instead of the in-order successor being spliced in (which would leave
`[1, 3]`); and popping an absent key raises `AttributeError` (the source
reads `node.parent` before its `None` check), not a key-not-found
error. -/
theorem c5_pop_node_broken :
    (c5Run.map fun s => (inorderKeys 10 s s.root).map KeyWirePair.key) =
      Except.ok [3] ∧
    RangeIndex.empty.pop_node (pk 1 1) = Except.error .attributeError :=
  ⟨rfl, rfl⟩

/-- C2 refuted on the code: with key 2 stored and the bounds the sweep
engine itself would use, both `list` and `count` raise `AttributeError`,
because they iterate `self.data` — an attribute `__init__` (which sets
only `root`) never creates — instead of returning the in-range keys and
their number. -/
theorem c2_list_count_raise :
    (do
      let s ← RangeIndex.empty.add (pk 2 2)
      s.list (keyWirePairL 0) (keyWirePairH 5)) = Except.error .attributeError ∧
    (do
      let s ← RangeIndex.empty.add (pk 2 2)
      s.count (keyWirePairL 0) (keyWirePairH 5)) = Except.error .attributeError :=
  ⟨rfl, rfl⟩

/-!
The sweep engine (`CrossVerifier`) and its event list. -/

/-- Event tags: `'add'` (activate a horizontal wire) and `'query'`
(range-query at a vertical wire). -/
inductive EvType where
  | add
  | query
deriving DecidableEq, Repr

/-- Embeds the event record `[x, kind, object_id, tag, wire]` built by
`CrossVerifier._events_from_layer` (kind 0 for add, 1 for query). -/
structure Event where
  x : Int
  kind : Nat
  oid : Nat
  ety : EvType
  wire : Wire
deriving DecidableEq, Repr

/-- Embeds Python's `min` over a list of values: `ValueError` on an empty
list. -/
def pyMin : List Int → PyM Int
  | [] => .error .valueError
  | x :: xs => .ok (xs.foldl min x)

/-- Embeds `CrossVerifier._events_from_layer`: `left_edge` is the global
minimum `x1` over ALL wires of the layer; every horizontal wire gets its
add event at that `left_edge` (not at its own `x1`), every vertical wire
a query event at its own `x1`. -/
def eventsFromLayer (wires : List Wire) : PyM (List Event) := do
  let left_edge ← pyMin (wires.map Wire.x1)
  Except.ok (wires.map fun w =>
    if w.is_horizontal then ⟨left_edge, 0, w.object_id, .add, w⟩
    else ⟨w.x1, 1, w.object_id, .query, w⟩)

/-- The order `self.events.sort()` uses: Python compares the event lists
lexicographically; the `(x, kind, object_id)` prefix already
discriminates any two distinct events, the `object_id` being unique, so
the tag and wire entries are never compared. -/
def eventLe (a b : Event) : Bool :=
  decide (a.x < b.x) ||
    (a.x == b.x &&
      (decide (a.kind < b.kind) || (a.kind == b.kind && decide (a.oid ≤ b.oid))))

/-- Insertion into a sorted event list. -/
def insertEvent (e : Event) : List Event → List Event
  | [] => [e]
  | f :: t => if eventLe e f then e :: f :: t else f :: insertEvent e t

/-- Sorting of the event list by `eventLe` (stability is irrelevant:
the comparison prefixes are unique). -/
def sortEvents : List Event → List Event
  | [] => []
  | e :: t => insertEvent e (sortEvents t)

/-- Embeds `CrossVerifier`: the sorted event list, the owned
`RangeIndex`, the `ResultSet` contents (a list of canonicalized name
pairs, as `ResultSet.crossings` holds), and the single-use flag. -/
structure CrossVerifier where
  events : List Event
  index : RangeIndex
  result_set : List (List String)
  performed : Bool
deriving DecidableEq, Repr

/-- Embeds `CrossVerifier.__init__` over a layer given as its list of
wires (the dict's insertion order). -/
def mkCrossVerifier (wires : List Wire) : PyM CrossVerifier := do
  let evs ← eventsFromLayer wires
  Except.ok ⟨sortEvents evs, RangeIndex.empty, [], false⟩

/-- Embeds `sorted([wire1.name, wire2.name])` in
`ResultSet.add_crossing`. -/
def sortedPair (a b : String) : List String :=
  if decide (b < a) then [b, a] else [a, b]

/-- Embeds the candidate filter of a query event: for each key-wire pair
returned by the range query, keep its wire when the exact `intersects`
test passes (`wire.intersects(kwp.wire)`; a sentinel's `None` wire would
raise `AttributeError` inside `intersects`). -/
def crossFilter (w : Wire) : List KeyWirePair → PyM (List Wire)
  | [] => .ok []
  | k :: t =>
    match k.wire with
    | none => .error .attributeError
    | some cw => do
      let rest ← crossFilter w t
      Except.ok (if w.intersects cw then cw :: rest else rest)

/-- Embeds the event loop of `CrossVerifier._compute_crossings`,
threading the count, the result-set contents and the mutated index:
an add event inserts `KeyWirePair(wire.y1, wire)`; a query event lists
the index between the sentinels at `wire.y1` and `wire.y2`, filters by
`intersects`, and either counts the candidates or records each
canonicalized crossing pair. -/
def sweepLoop : List Event → Bool → Nat → List (List String) → RangeIndex →
    PyM (Nat × List (List String) × RangeIndex)
  | [], _, cnt, res, idx => .ok (cnt, res, idx)
  | e :: rest, count_only, cnt, res, idx => do
    match e.ety with
    | .add => do
      let kwp ← mkKeyWirePair e.wire.y1 (some e.wire)
      let idx ← idx.add kwp
      sweepLoop rest count_only cnt res idx
    | .query => do
      let kwps ← idx.list (keyWirePairL e.wire.y1) (keyWirePairH e.wire.y2)
      let cross_wires ← crossFilter e.wire kwps
      if count_only then
        sweepLoop rest count_only (cnt + cross_wires.length) res idx
      else
        sweepLoop rest count_only cnt
          (res ++ cross_wires.map fun cw => sortedPair e.wire.name cw.name) idx

/-- Embeds `CrossVerifier.count_crossings`: a bare `raise` (Python
`RuntimeError`) when already performed, else sets the flag and runs the
sweep in counting mode. -/
def CrossVerifier.count_crossings (cv : CrossVerifier) :
    PyM (Nat × CrossVerifier) := do
  if cv.performed then Except.error .bareRaise else
  let cv := {cv with performed := true}
  let (cnt, res, idx) ← sweepLoop cv.events true 0 cv.result_set cv.index
  Except.ok (cnt, {cv with result_set := res, index := idx})

/-- Embeds `CrossVerifier.wire_crossings`: a bare `raise` when already
performed, else sets the flag and runs the sweep in listing mode,
returning the result-set contents. -/
def CrossVerifier.wire_crossings (cv : CrossVerifier) :
    PyM (List (List String) × CrossVerifier) := do
  if cv.performed then Except.error .bareRaise else
  let cv := {cv with performed := true}
  let (_, res, idx) ← sweepLoop cv.events false 0 cv.result_set cv.index
  Except.ok (res, {cv with result_set := res, index := idx})

/-- A horizontal wire whose own left edge is x = 5, to the right of the
layer's global left edge. -/
def hRight : Wire := ⟨"b", 5, 1, 10, 1, 1⟩

/-- A horizontal wire starting at the global left edge x = 0. -/
def hLeft : Wire := ⟨"a", 0, 0, 10, 0, 0⟩

/-- C3 refuted on the code: in a layer of two horizontal wires starting
at x = 0 and x = 5, BOTH activate events are emitted at the global
minimum x = 0; the wire starting at x = 5 does not get its event at its
own leftmost coordinate.  (The query half of the claim is as stated: a
vertical wire's query event is emitted at its own single x.) -/
theorem c3_activate_at_global_min :
    ((eventsFromLayer [hLeft, hRight]).map fun es => es.map Event.x) =
      Except.ok [0, 0] ∧
    hRight.x1 = 5 ∧
    ((eventsFromLayer [hLeft, hRight, vDemo]).map fun es => es.map Event.x) =
      Except.ok [0, 0, 5] :=
  ⟨rfl, rfl, rfl⟩

/-- The verifier over the spec's first end-to-end layer: the horizontal
wire (0,0)-(10,0) and the vertical wire (5,-5)-(5,5), which truly
cross. -/
def cvDemo : PyM CrossVerifier := mkCrossVerifier [hDemo, vDemo]

/-- C8 refuted on the code: on the crossing demo layer the FIRST call to
`count_crossings` already fails — the query event calls
`RangeIndex.list`, which raises `AttributeError` on the never-created
`self.data` — while the claim says the first call succeeds.  The reuse
guard itself fires, but through a bare `raise` (Python `RuntimeError`),
there being no `AlreadyPerformedError` anywhere in the source. -/
theorem c8_first_call_crashes :
    (do
      let cv ← cvDemo
      let (n, _) ← cv.count_crossings
      Except.ok n) = (Except.error .attributeError : PyM Nat) ∧
    (do
      let cv ← cvDemo
      let cv2 := {cv with performed := true}
      let (n, _) ← cv2.count_crossings
      Except.ok n) = (Except.error .bareRaise : PyM Nat) :=
  ⟨rfl, rfl⟩

/-- C9 refuted on the code: on the crossing demo layer the pair
("h", "v") truly crosses (`intersects` is true), yet `wire_crossings`
raises `AttributeError` through the broken `RangeIndex.list` instead of
returning a list containing that pair once. -/
theorem c9_wire_crossings_crashes :
    Wire.intersects hDemo vDemo = true ∧
    (do
      let cv ← cvDemo
      let (r, _) ← cv.wire_crossings
      Except.ok r) = (Except.error .attributeError : PyM (List (List String))) :=
  ⟨rfl, rfl⟩
